import Mathlib

/-!
Shallow embedding of the cat-feeder firmware (jvanstraten/cat-feeder),
files `src/fsm.cpp` / `include/fsm.h` and `src/loadcell.cpp` /
`include/loadcell.h`, with theorems checking the natural-language
specification against it.

Modelling conventions:
* C++ `int32_t` values are modelled as `ℤ`; the code under scrutiny never
  comes near the 2^31 overflow boundary in the quantities the claims range
  over, and no claim is about wrap-around, so the `% 2^32` reduction is
  elided.  `unsigned long` millisecond counters are modelled as `ℕ`.
* C++ `float` values are modelled as `ℚ`.  All float computations the
  claims touch (sums, differences, halving, comparisons against small
  constants) are exact at the relevant magnitudes, and no claim is about
  float rounding, so the rational model is faithful for them.
* C++ truncating integer division (`/` on integers, toward zero) is
  modelled by `Int.tdiv`; C++ `static_cast<int>` of a float truncates
  toward zero and is modelled by `truncQ`.
* The HX711/`Loadcell` driver is an I/O device; for the state machine it
  is an oracle.  Each call to `StateMachine::update()` receives an `Input`
  carrying the wall-clock delta, the limit-switch level, and the loadcell
  driver's busy flag and its current mean/stddev registers (in grams).
* MQTT publication (`PublishedFloatSensor.set` etc.) only forwards values
  to the network; the locally cached `value` fields that the state machine
  reads back (`reservoir_mean`, `bowl_mean`, ...) are kept as state, the
  write-only ones (`mqtt_deficit`, `mqtt_feeding`, `mqtt_error`, ...) are
  dropped.  GPIO writes (the motor pin) are likewise dropped.
* The `while (deficit_ms_remain < 0)` loop in `update()` can diverge
  (when `86400 / grams_per_day` is not positive); `update` therefore
  returns `Option`, with `none` marking divergence.  The fuel given to
  the loop is provably sufficient whenever the C++ loop terminates.
-/

namespace Loadcell

/-- `Loadcell::Sensor` from `loadcell.h`. -/
inductive Sensor
  | RESERVOIR
  | BOWL
deriving DecidableEq

/-- `Loadcell::NUM_SAMPLES` from `loadcell.h`. -/
def NUM_SAMPLES : ℤ := 32

/-- The raw-mean computation of `Loadcell::update()` (`loadcell.cpp`,
lines 28-33): an `int64_t` accumulator starts at `NUM_SAMPLES / 2`, the 32
raw samples are added, and the result is divided by `NUM_SAMPLES` with C++
truncating division. -/
def mean_raw (samples : List ℤ) : ℤ :=
  Int.tdiv (Int.tdiv NUM_SAMPLES 2 + samples.sum) NUM_SAMPLES

/-- Modelled from the spec: rounding a rational to the nearest integer,
ties upward, which is what the spec's "round-to-nearest rather than
truncation" biasing idiom computes.  Used only to compare `mean_raw`
against the spec's words. -/
def roundHalfUp (q : ℚ) : ℤ := ⌊q + 1 / 2⌋

end Loadcell

namespace StateMachine

/-- `StateMachine::State` from `fsm.h`. -/
inductive State
  | IDLE
  | IDLE_TARE_RESERVOIR_WAIT
  | IDLE_TARE_RESERVOIR
  | IDLE_TARE_BOWL
  | IDLE_MEASURE_RESERVOIR
  | IDLE_MEASURE_BOWL
  | FEED_PRE_MEASURE_WAIT
  | FEED_PRE_MEASURE_RESERVOIR
  | FEED_PRE_MEASURE_BOWL
  | FEED_RUN_SYNC
  | FEED_RUN_A
  | FEED_RUN_B
  | FEED_RUN_C
  | FEED_POST_WAIT
  | FEED_POST_MEASURE_BOWL
  | FEED_POST_MEASURE_RESERVOIR
deriving DecidableEq

/-- `StateMachine::MaintenanceMode` from `fsm.h`. -/
inductive MaintenanceMode
  | OPERATIONAL
  | MAINTENANCE
  | JAMMED
deriving DecidableEq

/-- `StateMachine::FeedResult` from `fsm.h`. -/
inductive FeedResult
  | NONE
  | SUCCESS
  | SENSOR_RETRY
deriving DecidableEq

/-- `StateMachine::ErrorSeverity` from `fsm.h`. -/
inductive ErrorSeverity
  | OKAY
  | WARNING
  | ERROR
deriving DecidableEq

/-- `StateMachine::FeedBlockReason` from `fsm.h`. -/
inductive FeedBlockReason
  | NOT_BLOCKED
  | MAINTENANCE
  | JAMMED
  | COOLDOWN
  | DEFICIT
deriving DecidableEq

/-- `StateMachine::FeedReport` from `fsm.h`. -/
structure FeedReport where
  result : FeedResult
  arg : ℤ
  millis : ℕ
deriving DecidableEq

/-- `StateMachine::ErrorReport` from `fsm.h`; the C++ `const char *`
message is `Option String`, with `none` for the null pointer. -/
structure ErrorReport where
  message : Option String
  severity : ErrorSeverity
deriving DecidableEq

/-- Constants from `fsm.h` (production build: `DEBUG_FSM` is not
defined). -/
def FEED_MAX_RETRIES : ℕ := 3

/-- `StateMachine::FEED_RUN_TIMEOUT_MILLIS` from `fsm.h`. -/
def FEED_RUN_TIMEOUT_MILLIS : ℕ := 3000

/-- `StateMachine::FEED_RUN_LIMP_MILLIS` from `fsm.h`. -/
def FEED_RUN_LIMP_MILLIS : ℕ := 2000

/-- `StateMachine::FEED_RUN_POST_MILLIS` from `fsm.h`. -/
def FEED_RUN_POST_MILLIS : ℕ := 10

/-- `StateMachine::FEED_TO_MEASURE_MILLIS` from `fsm.h`. -/
def FEED_TO_MEASURE_MILLIS : ℕ := 800

/-- `StateMachine::FEED_COOLDOWN_MILLIS` from `fsm.h` (production value,
5 minutes). -/
def FEED_COOLDOWN_MILLIS : ℕ := 5 * 60 * 1000

/-- `StateMachine::FEED_ASSUMED_WEIGHT_GRAMS` from `fsm.h`. -/
def FEED_ASSUMED_WEIGHT_GRAMS : ℚ := 9

/-- `StateMachine::FEED_MAX_DISAGREE_GRAMS` from `fsm.h`. -/
def FEED_MAX_DISAGREE_GRAMS : ℚ := 5

/-- The mutable state of `class StateMachine` (fields of `fsm.h`), plus
the loadcell driver's currently selected sensor (set via
`loadcell.start` in `StateMachine::transition`).  `feed_bowl_post_valid`
is declared in `fsm.h` but never read or written in `fsm.cpp`, so it is
omitted.  Write-only MQTT mirrors are omitted (see file header). -/
structure Fsm where
  lcSensor : Loadcell.Sensor
  state : State
  maintenance_mode : MaintenanceMode
  error_reservoir_stddev : Bool
  error_bowl_stddev : Bool
  error_loadcell_timeout : Bool
  error_loadcell_disagree : Bool
  error_loadcell_unreasonable : Bool
  error_limit_switch : Bool
  error_power_loss : Bool
  grams_per_day : ℤ
  deficit_ms_remain : ℤ
  deficit_mg : ℤ
  deficit_threshold_mg : ℤ
  millis_since_reservoir_read : ℕ
  millis_since_bowl_read : ℕ
  millis_since_feed_attempt : ℕ
  millis_since_transition : ℕ
  millis_since_mqtt_string_update : ℕ
  state_retries : ℕ
  feed_sensor_retries : ℕ
  feed_jammed_retries : ℕ
  feed_reservoir_pre : ℚ
  feed_reservoir_post : ℚ
  feed_bowl_pre : ℚ
  feed_bowl_post : ℚ
  feed_report : FeedReport
  reservoir_mean : ℚ
  reservoir_stddev : ℚ
  bowl_mean : ℚ
  bowl_stddev : ℚ
  mqtt_last_feed : ℚ
deriving DecidableEq

/-- Per-tick environment for `StateMachine::update()`: elapsed
milliseconds, the limit-switch GPIO level (`digitalRead(PIN_LIMIT) ==
HIGH`), the loadcell driver's busy flag and mean/stddev registers, and
the absolute `millis()` clock used for time-stamping feed reports. -/
structure Input where
  delta : ℕ
  limit : Bool
  lcBusy : Bool
  lcMean : ℚ
  lcStddev : ℚ
  now : ℕ
deriving DecidableEq

/-- `StateMachine::error_reset()` from `fsm.cpp`. -/
def error_reset (s : Fsm) : Fsm :=
  { s with
    error_reservoir_stddev := false
    error_bowl_stddev := false
    error_loadcell_timeout := false
    error_loadcell_disagree := false
    error_loadcell_unreasonable := false
    error_limit_switch := false
    error_power_loss := false }

/-- `StateMachine::loadcell_limp_mode()` from `fsm.cpp`; `none` models
the null pointer. -/
def loadcell_limp_mode (s : Fsm) : Option String :=
  if s.error_loadcell_timeout then some "Sensor timeout"
  else if s.error_reservoir_stddev then some "Reservoir noisy"
  else if s.error_bowl_stddev then some "Bowl noisy"
  else if s.error_loadcell_disagree then some "Sensor disagree"
  else if s.error_loadcell_unreasonable then some "Sensor sanity"
  else none

/-- `StateMachine::need_to_feed()` from `fsm.cpp`. -/
def need_to_feed (s : Fsm) : FeedBlockReason :=
  match s.maintenance_mode with
  | MaintenanceMode.MAINTENANCE => FeedBlockReason.MAINTENANCE
  | MaintenanceMode.JAMMED => FeedBlockReason.JAMMED
  | MaintenanceMode.OPERATIONAL =>
    if s.deficit_mg < s.deficit_threshold_mg then FeedBlockReason.DEFICIT
    else if s.millis_since_feed_attempt < FEED_COOLDOWN_MILLIS then FeedBlockReason.COOLDOWN
    else FeedBlockReason.NOT_BLOCKED

/-- `StateMachine::transition(State)` from `fsm.cpp`.  The
`loadcell.start(...)` calls select the sensor to be read (the taring
flag only matters inside the loadcell driver, which is the oracle). -/
def transition (s : Fsm) (new_state : State) : Fsm :=
  let retries := if new_state = s.state then s.state_retries + 1 else 0
  let sensor :=
    match new_state with
    | State.IDLE_TARE_RESERVOIR => Loadcell.Sensor.RESERVOIR
    | State.IDLE_TARE_BOWL => Loadcell.Sensor.BOWL
    | State.IDLE_MEASURE_RESERVOIR => Loadcell.Sensor.RESERVOIR
    | State.FEED_PRE_MEASURE_RESERVOIR => Loadcell.Sensor.RESERVOIR
    | State.FEED_POST_MEASURE_RESERVOIR => Loadcell.Sensor.RESERVOIR
    | State.IDLE_MEASURE_BOWL => Loadcell.Sensor.BOWL
    | State.FEED_PRE_MEASURE_BOWL => Loadcell.Sensor.BOWL
    | State.FEED_POST_MEASURE_BOWL => Loadcell.Sensor.BOWL
    | _ => s.lcSensor
  { s with
    state_retries := retries
    lcSensor := sensor
    millis_since_transition := 0
    state := new_state }

/-- `StateMachine::handle_loadcell_readout()` from `fsm.cpp`.  Returns
the C++ return value paired with the updated state. -/
def handle_loadcell_readout (s : Fsm) (i : Input) : Bool × Fsm :=
  if s.error_loadcell_timeout || decide (s.millis_since_transition > 10000) then
    (true, { s with error_loadcell_timeout := true })
  else if i.lcBusy then (false, s)
  else
    match s.lcSensor with
    | Loadcell.Sensor.RESERVOIR =>
      (true, { s with
        reservoir_mean := i.lcMean
        reservoir_stddev := i.lcStddev
        millis_since_reservoir_read := 0 })
    | Loadcell.Sensor.BOWL =>
      (true, { s with
        bowl_mean := i.lcMean
        bowl_stddev := i.lcStddev
        millis_since_bowl_read := 0 })

/-- `StateMachine::estimate_dispensed_weight_grams()` from `fsm.cpp`.
Returns the C++ return value paired with the updated state (the function
can set the disagree/unreasonable error flags). -/
def estimate_dispensed_weight_grams (s : Fsm) : ℚ × Fsm :=
  if (loadcell_limp_mode s).isSome then (FEED_ASSUMED_WEIGHT_GRAMS, s)
  else
    let dispensed_reservoir := s.feed_reservoir_pre - s.feed_reservoir_post
    let dispensed_bowl := s.feed_bowl_post - s.feed_bowl_pre
    if |dispensed_reservoir - dispensed_bowl| > FEED_MAX_DISAGREE_GRAMS then
      (FEED_ASSUMED_WEIGHT_GRAMS, { s with error_loadcell_disagree := true })
    else
      let dispensed := (dispensed_reservoir + dispensed_bowl) / 2
      if dispensed < -2 ∨ dispensed > FEED_ASSUMED_WEIGHT_GRAMS * 3 then
        (FEED_ASSUMED_WEIGHT_GRAMS, { s with error_loadcell_unreasonable := true })
      else (dispensed, s)

/-- C++ `static_cast<int>` applied to a float value: truncation toward
zero, on the rational model. -/
def truncQ (q : ℚ) : ℤ := Int.tdiv q.num (q.den : ℤ)

/-- `StateMachine::complete_feed()` from `fsm.cpp`.  `now` is the value
of `millis()`.  The `0.3f` jam threshold factor is the rational 3/10. -/
def complete_feed (s : Fsm) (now : ℕ) : Fsm :=
  let wst := estimate_dispensed_weight_grams s
  let dispensed_weight_grams := wst.1
  let s1 := wst.2
  let s2 :=
    if dispensed_weight_grams > FEED_ASSUMED_WEIGHT_GRAMS * (3 / 10) then
      let s' := { s1 with feed_jammed_retries := 0 }
      if s'.maintenance_mode = MaintenanceMode.JAMMED then
        { s' with maintenance_mode := MaintenanceMode.OPERATIONAL }
      else s'
    else
      let s' := { s1 with feed_jammed_retries := s1.feed_jammed_retries + 1 }
      if s'.feed_jammed_retries ≥ FEED_MAX_RETRIES then
        { s' with maintenance_mode := MaintenanceMode.JAMMED }
      else s'
  let dispensed_weight_mg := truncQ (dispensed_weight_grams * 1000)
  transition
    { s2 with
      deficit_mg := s2.deficit_mg - dispensed_weight_mg
      millis_since_feed_attempt := 0
      feed_sensor_retries := 0
      feed_report := ⟨FeedResult.SUCCESS, dispensed_weight_mg, now⟩
      mqtt_last_feed := dispensed_weight_grams }
    State.IDLE

/-- The `while (deficit_ms_remain < 0)` loop of `StateMachine::update()`
(`fsm.cpp` lines 209-212), fuelled.  Each iteration adds `step`
(`86400 / grams_per_day` with C++ truncating division) to the countdown
and 1 to the deficit; `none` means the fuel ran out while the countdown
was still negative. -/
def deficitLoop : ℕ → ℤ → ℤ → ℤ → Option (ℤ × ℤ)
  | 0, _, ms, mg => if ms < 0 then none else some (ms, mg)
  | fuel + 1, step, ms, mg =>
    if ms < 0 then deficitLoop fuel step (ms + step) (mg + 1) else some (ms, mg)

/-- The `switch (state)` block of `StateMachine::update()` (`fsm.cpp`
lines 262-483), applied after the deficit and timer updates.  The local
`motor` flag only drives the motor GPIO and is dropped. -/
def stepState (s : Fsm) (i : Input) : Fsm :=
  match s.state with
  | State.IDLE =>
    if need_to_feed s = FeedBlockReason.NOT_BLOCKED then
      -- `feed()` is `transition(State::FEED_PRE_MEASURE_WAIT)`.
      transition s State.FEED_PRE_MEASURE_WAIT
    else
      let sensor_read_cooldown : ℕ :=
        if s.maintenance_mode = MaintenanceMode.MAINTENANCE then 0 else 5 * 60 * 1000
      if s.millis_since_reservoir_read > s.millis_since_bowl_read then
        if s.millis_since_reservoir_read > sensor_read_cooldown then
          transition s State.IDLE_MEASURE_RESERVOIR
        else s
      else
        if s.millis_since_bowl_read > sensor_read_cooldown then
          transition s State.IDLE_MEASURE_BOWL
        else s
  | State.IDLE_TARE_RESERVOIR_WAIT =>
    if s.millis_since_transition > 2000 then transition s State.IDLE_TARE_RESERVOIR else s
  | State.IDLE_TARE_RESERVOIR =>
    let r := handle_loadcell_readout s i
    if r.1 then transition r.2 State.IDLE else r.2
  | State.IDLE_MEASURE_RESERVOIR =>
    let r := handle_loadcell_readout s i
    if r.1 then transition r.2 State.IDLE else r.2
  | State.IDLE_TARE_BOWL =>
    let r := handle_loadcell_readout s i
    if r.1 then transition r.2 State.IDLE else r.2
  | State.IDLE_MEASURE_BOWL =>
    let r := handle_loadcell_readout s i
    if r.1 then transition r.2 State.IDLE else r.2
  | State.FEED_PRE_MEASURE_WAIT =>
    if s.millis_since_transition > 2000 then transition s State.FEED_PRE_MEASURE_RESERVOIR else s
  | State.FEED_PRE_MEASURE_RESERVOIR =>
    if (loadcell_limp_mode s).isNone then
      let r := handle_loadcell_readout s i
      if !r.1 then r.2
      else if i.lcStddev < 1 then
        transition { r.2 with feed_reservoir_pre := i.lcMean } State.FEED_PRE_MEASURE_BOWL
      else if r.2.state_retries < 5 then transition r.2 r.2.state
      else if r.2.feed_sensor_retries ≤ FEED_MAX_RETRIES then
        let retries := r.2.feed_sensor_retries + 1
        transition
          { r.2 with
            millis_since_feed_attempt := 0
            feed_sensor_retries := retries
            feed_report := ⟨FeedResult.SENSOR_RETRY, (retries : ℤ), i.now⟩ }
          State.IDLE
      else transition { r.2 with error_reservoir_stddev := true } State.FEED_PRE_MEASURE_BOWL
    else transition { s with error_reservoir_stddev := true } State.FEED_PRE_MEASURE_BOWL
  | State.FEED_PRE_MEASURE_BOWL =>
    if (loadcell_limp_mode s).isNone then
      let r := handle_loadcell_readout s i
      if !r.1 then r.2
      else if i.lcStddev < 1 then
        transition { r.2 with feed_bowl_pre := i.lcMean } State.FEED_RUN_SYNC
      else if r.2.state_retries < 5 then transition r.2 r.2.state
      else if r.2.feed_sensor_retries ≤ FEED_MAX_RETRIES then
        let retries := r.2.feed_sensor_retries + 1
        transition
          { r.2 with
            millis_since_feed_attempt := 0
            feed_sensor_retries := retries
            feed_report := ⟨FeedResult.SENSOR_RETRY, (retries : ℤ), i.now⟩ }
          State.IDLE
      else transition { r.2 with error_bowl_stddev := true } State.FEED_RUN_SYNC
    else transition { s with error_bowl_stddev := true } State.FEED_RUN_SYNC
  | State.FEED_RUN_SYNC =>
    if !s.error_limit_switch then
      if !i.limit then transition s State.FEED_RUN_A
      else if s.millis_since_transition < FEED_RUN_TIMEOUT_MILLIS then s
      else transition { s with error_limit_switch := true } State.FEED_POST_WAIT
    else
      if s.millis_since_transition > FEED_RUN_LIMP_MILLIS then
        transition s State.FEED_POST_WAIT
      else s
  | State.FEED_RUN_A =>
    if i.limit ∧ s.millis_since_transition > 50 then transition s State.FEED_RUN_B
    else if s.millis_since_transition < FEED_RUN_TIMEOUT_MILLIS then s
    else transition { s with error_limit_switch := true } State.FEED_POST_WAIT
  | State.FEED_RUN_B =>
    if !i.limit ∧ s.millis_since_transition > 50 then transition s State.FEED_RUN_C
    else if s.millis_since_transition < FEED_RUN_TIMEOUT_MILLIS then s
    else transition { s with error_limit_switch := true } State.FEED_POST_WAIT
  | State.FEED_RUN_C =>
    if s.millis_since_transition > FEED_RUN_POST_MILLIS then
      transition s State.FEED_POST_WAIT
    else s
  | State.FEED_POST_WAIT =>
    if s.millis_since_transition > FEED_TO_MEASURE_MILLIS then
      transition s State.FEED_POST_MEASURE_BOWL
    else s
  | State.FEED_POST_MEASURE_BOWL =>
    if (loadcell_limp_mode s).isNone then
      let r := handle_loadcell_readout s i
      if !r.1 then r.2
      else if i.lcStddev < 1 then
        transition { r.2 with feed_bowl_post := i.lcMean } State.FEED_POST_MEASURE_RESERVOIR
      else if r.2.state_retries < 5 then transition r.2 r.2.state
      else transition { r.2 with error_bowl_stddev := true } State.FEED_POST_MEASURE_RESERVOIR
    else transition { s with error_bowl_stddev := true } State.FEED_POST_MEASURE_RESERVOIR
  | State.FEED_POST_MEASURE_RESERVOIR =>
    if (loadcell_limp_mode s).isNone then
      let r := handle_loadcell_readout s i
      if !r.1 then r.2
      else if i.lcStddev < 1 then
        complete_feed { r.2 with feed_reservoir_post := i.lcMean } i.now
      else if r.2.state_retries < 5 then transition r.2 r.2.state
      else complete_feed { r.2 with error_reservoir_stddev := true } i.now
    else complete_feed { s with error_reservoir_stddev := true } i.now

/-- The deficit-accrual step of `StateMachine::update()` (`fsm.cpp`
lines 207-213): subtract the elapsed delta from the countdown, then run
the replenishment loop.  `none` models divergence of the loop; the fuel
`(...).natAbs + 1` is sufficient whenever the C++ loop terminates (each
iteration of the terminating loop raises the countdown by at least 1). -/
def accrueDeficit (s : Fsm) (delta : ℕ) : Option Fsm :=
  let ms1 := s.deficit_ms_remain - (delta : ℤ)
  let step := Int.tdiv 86400 s.grams_per_day
  match deficitLoop (ms1.natAbs + 1) step ms1 s.deficit_mg with
  | none => none
  | some (ms, mg) => some { s with deficit_ms_remain := ms, deficit_mg := mg }

/-- The timer updates of `StateMachine::update()` (`fsm.cpp` lines
215-257): the MQTT string-update timer, then the four regular timers. -/
def tickTimers (s : Fsm) (delta : ℕ) : Fsm :=
  let s :=
    if s.millis_since_mqtt_string_update > 5000 then
      { s with millis_since_mqtt_string_update := 0 }
    else
      { s with millis_since_mqtt_string_update := s.millis_since_mqtt_string_update + delta }
  { s with
    millis_since_reservoir_read := s.millis_since_reservoir_read + delta
    millis_since_bowl_read := s.millis_since_bowl_read + delta
    millis_since_feed_attempt := s.millis_since_feed_attempt + delta
    millis_since_transition := s.millis_since_transition + delta }

/-- `StateMachine::update()` from `fsm.cpp`: deficit accrual, MQTT
status and timer updates, then the state switch. -/
def update (s : Fsm) (i : Input) : Option Fsm :=
  match accrueDeficit s i.delta with
  | none => none
  | some s1 => some (stepState (tickTimers s1 i.delta) i)

/-- `StateMachine::enter_maintenance()` from `fsm.cpp`. -/
def enter_maintenance (s : Fsm) : Fsm :=
  transition { error_reset s with maintenance_mode := MaintenanceMode.MAINTENANCE } State.IDLE

/-- `StateMachine::reset()` from `fsm.cpp`. -/
def reset (s : Fsm) : Fsm :=
  let s1 := transition { error_reset s with maintenance_mode := MaintenanceMode.OPERATIONAL } State.IDLE
  { s1 with state_retries := 0, feed_jammed_retries := 0, feed_sensor_retries := 0 }

/-- `StateMachine::adjust_deficit(int32_t)` from `fsm.cpp`. -/
def adjust_deficit (s : Fsm) (milligrams : ℤ) : Fsm :=
  { s with deficit_mg := s.deficit_mg + milligrams }

/-- `StateMachine::set_grams_per_day(int32_t)` from `fsm.cpp`. -/
def set_grams_per_day (s : Fsm) (new_grams_per_day : ℤ) : Fsm :=
  { s with grams_per_day := new_grams_per_day }

/-- `StateMachine::get_error_report()` from `fsm.cpp`. -/
def get_error_report (s : Fsm) : ErrorReport :=
  if s.error_limit_switch then ⟨some "Motor timeout", ErrorSeverity.ERROR⟩
  else
    match loadcell_limp_mode s with
    | some mode => ⟨some mode, ErrorSeverity.ERROR⟩
    | none =>
      if s.error_power_loss then ⟨some "Power loss", ErrorSeverity.ERROR⟩
      else if s.maintenance_mode = MaintenanceMode.JAMMED then
        ⟨some "Jammed/empty", ErrorSeverity.ERROR⟩
      else if s.feed_jammed_retries ≠ 0 then ⟨some "Jammed/empty?", ErrorSeverity.WARNING⟩
      else if s.reservoir_mean < 250 then ⟨some "Reservoir low", ErrorSeverity.WARNING⟩
      else ⟨none, ErrorSeverity.OKAY⟩

/-- The member initializers of `fsm.h` for the production build
(`DEBUG_FSM` commented out, so `error_power_loss` starts `true`), as the
state after construction and `begin()`.  `unsigned long` is 32-bit on
the target, so `max()/2` is 2147483647. -/
def initState : Fsm where
  lcSensor := Loadcell.Sensor.RESERVOIR
  state := State.IDLE
  maintenance_mode := MaintenanceMode.OPERATIONAL
  error_reservoir_stddev := false
  error_bowl_stddev := false
  error_loadcell_timeout := false
  error_loadcell_disagree := false
  error_loadcell_unreasonable := false
  error_limit_switch := false
  error_power_loss := true
  grams_per_day := 60
  deficit_ms_remain := 0
  deficit_mg := 0
  deficit_threshold_mg := 0
  millis_since_reservoir_read := 2147483647
  millis_since_bowl_read := 2147483647
  millis_since_feed_attempt := 0
  millis_since_transition := 0
  millis_since_mqtt_string_update := 0
  state_retries := 0
  feed_sensor_retries := 0
  feed_jammed_retries := 0
  feed_reservoir_pre := 0
  feed_reservoir_post := 0
  feed_bowl_pre := 0
  feed_bowl_post := 0
  feed_report := ⟨FeedResult.NONE, 0, 0⟩
  reservoir_mean := 0
  reservoir_stddev := 0
  bowl_mean := 0
  bowl_stddev := 0
  mqtt_last_feed := 0

/-- A sequence of `update()` calls with no command-surface calls
interleaved; `none` if any tick diverges. -/
def runUpdates (s : Fsm) : List Input → Option Fsm
  | [] => some s
  | i :: rest =>
    match update s i with
    | none => none
    | some s' => runUpdates s' rest

end StateMachine

namespace StateMachine

/-! Concrete scenario states and inputs used by the claim theorems,
their counterexamples and their witnesses. -/

/-- A 1 ms tick with no limit switch and the loadcell busy. -/
def tick1ms : Input := ⟨1, false, true, 0, 0, 0⟩

/-- A 0 ms tick with no limit switch and the loadcell busy. -/
def tick0ms : Input := ⟨0, false, true, 0, 0, 0⟩

/-- The result of the deficit-accrual phase on the initial state after a
1 ms tick. -/
def sC1res : Fsm := (accrueDeficit initState 1).getD initState

/-- Initial state with the feeding rate set to 100000 g/day (allowed by
`set_grams_per_day`, which does not validate). -/
def sC2 : Fsm := set_grams_per_day initState 100000

/-- A state sitting in `FEED_RUN_SYNC` for 3 seconds, fault flag clear. -/
def sC3 : Fsm :=
  { initState with state := State.FEED_RUN_SYNC, millis_since_transition := 3000 }

/-- A 0 ms tick with the limit switch asserted. -/
def tickLimit : Input := ⟨0, true, true, 0, 0, 0⟩

/-- The state after `update` on `sC3` with the limit switch asserted. -/
def sC3res : Fsm := (update sC3 tickLimit).getD initState

/-- Feed-cycle weights from the spec's disagreement example:
`pre_reservoir=500, post_reservoir=491, pre_bowl=10, post_bowl=10.5`. -/
def sC4 : Fsm :=
  { initState with
    feed_reservoir_pre := 500
    feed_reservoir_post := 491
    feed_bowl_pre := 10
    feed_bowl_post := 21 / 2 }

/-- The state after `update` on the initial state with a 0 ms tick. -/
def sC5res : Fsm := (update initState tick0ms).getD initState

/-- A pre-feed reservoir measurement state with the in-state retry limit
exhausted. -/
def sC7 : Fsm :=
  { initState with state := State.FEED_PRE_MEASURE_RESERVOIR, state_retries := 5 }

/-- A 0 ms tick delivering a noisy (stddev 2 g) completed measurement. -/
def tickNoisy : Input := ⟨0, false, false, 0, 2, 42⟩

/-- The state after `update` on `sC7` with a noisy measurement. -/
def sC7res : Fsm := (update sC7 tickNoisy).getD initState

/-- A state with no error condition at all: power-loss cleared and a
well-filled reservoir. -/
def sC8ok : Fsm := { initState with error_power_loss := false, reservoir_mean := 500 }

/-! Helper lemmas shared by the claim theorems. -/

@[simp] lemma transition_ms (s : Fsm) (st : State) :
    (transition s st).deficit_ms_remain = s.deficit_ms_remain := rfl

@[simp] lemma transition_mg (s : Fsm) (st : State) :
    (transition s st).deficit_mg = s.deficit_mg := rfl

@[simp] lemma transition_pow (s : Fsm) (st : State) :
    (transition s st).error_power_loss = s.error_power_loss := rfl

@[simp] lemma handle_ms (s : Fsm) (i : Input) :
    (handle_loadcell_readout s i).2.deficit_ms_remain = s.deficit_ms_remain := by
  unfold handle_loadcell_readout
  split_ifs <;> first | rfl | (cases s.lcSensor <;> rfl)

@[simp] lemma handle_mg (s : Fsm) (i : Input) :
    (handle_loadcell_readout s i).2.deficit_mg = s.deficit_mg := by
  unfold handle_loadcell_readout
  split_ifs <;> first | rfl | (cases s.lcSensor <;> rfl)

@[simp] lemma handle_pow (s : Fsm) (i : Input) :
    (handle_loadcell_readout s i).2.error_power_loss = s.error_power_loss := by
  unfold handle_loadcell_readout
  split_ifs <;> first | rfl | (cases s.lcSensor <;> rfl)

lemma estimate_fields (s : Fsm) :
    (estimate_dispensed_weight_grams s).2.deficit_ms_remain = s.deficit_ms_remain ∧
    (estimate_dispensed_weight_grams s).2.deficit_mg = s.deficit_mg ∧
    (estimate_dispensed_weight_grams s).2.error_power_loss = s.error_power_loss ∧
    (estimate_dispensed_weight_grams s).2.feed_jammed_retries = s.feed_jammed_retries ∧
    (estimate_dispensed_weight_grams s).2.maintenance_mode = s.maintenance_mode := by
  simp only [estimate_dispensed_weight_grams]
  split_ifs <;> simp

lemma complete_feed_fields (s : Fsm) (now : ℕ) :
    (complete_feed s now).deficit_ms_remain = s.deficit_ms_remain ∧
    (complete_feed s now).error_power_loss = s.error_power_loss ∧
    (complete_feed s now).deficit_mg
      = s.deficit_mg - truncQ ((estimate_dispensed_weight_grams s).1 * 1000) := by
  obtain ⟨h1, h2, h3, h4, h5⟩ := estimate_fields s
  simp only [complete_feed]
  split_ifs <;> simp_all [transition]

lemma stepState_core (s : Fsm) (i : Input) :
    (stepState s i).deficit_ms_remain = s.deficit_ms_remain ∧
    (stepState s i).error_power_loss = s.error_power_loss ∧
    ((stepState s i).deficit_mg = s.deficit_mg ∨
      ∃ t : Fsm, t.deficit_ms_remain = s.deficit_ms_remain ∧
        t.error_power_loss = s.error_power_loss ∧ t.deficit_mg = s.deficit_mg ∧
        stepState s i = complete_feed t i.now) := by
  cases hs : s.state
  case FEED_POST_MEASURE_RESERVOIR =>
    simp only [stepState, hs]
    split_ifs
    case _ => simp
    case _ h1 h2 h3 =>
      refine ⟨?_, ?_, Or.inr ⟨_, ?_, ?_, ?_, rfl⟩⟩
      · exact ((complete_feed_fields _ i.now).1).trans (by simp)
      · exact ((complete_feed_fields _ i.now).2.1).trans (by simp)
      · simp
      · simp
      · simp
    case _ => simp
    case _ h1 h2 h3 h4 =>
      refine ⟨?_, ?_, Or.inr ⟨_, ?_, ?_, ?_, rfl⟩⟩
      · exact ((complete_feed_fields _ i.now).1).trans (by simp)
      · exact ((complete_feed_fields _ i.now).2.1).trans (by simp)
      · simp
      · simp
      · simp
    case _ h1 =>
      refine ⟨?_, ?_, Or.inr ⟨_, ?_, ?_, ?_, rfl⟩⟩
      · exact ((complete_feed_fields _ i.now).1).trans (by simp)
      · exact ((complete_feed_fields _ i.now).2.1).trans (by simp)
      · simp
      · simp
      · simp
  all_goals (simp only [stepState, hs]; split_ifs <;> simp)

@[simp] lemma tickTimers_ms (s : Fsm) (d : ℕ) :
    (tickTimers s d).deficit_ms_remain = s.deficit_ms_remain := by
  simp only [tickTimers]
  split_ifs <;> rfl

@[simp] lemma tickTimers_mg (s : Fsm) (d : ℕ) :
    (tickTimers s d).deficit_mg = s.deficit_mg := by
  simp only [tickTimers]
  split_ifs <;> rfl

@[simp] lemma tickTimers_pow (s : Fsm) (d : ℕ) :
    (tickTimers s d).error_power_loss = s.error_power_loss := by
  simp only [tickTimers]
  split_ifs <;> rfl

lemma deficitLoop_spec (fuel : ℕ) :
    ∀ step ms mg ms' mg', deficitLoop fuel step ms mg = some (ms', mg') →
      ∃ n : ℕ, ms' = ms + n * step ∧ mg' = mg + n ∧ 0 ≤ ms' ∧
        ∀ k : ℕ, k < n → ms + k * step < 0 := by
  induction fuel with
  | zero =>
    intro step ms mg ms' mg' h
    unfold deficitLoop at h
    split_ifs at h
    injection h with h'
    rw [Prod.mk.injEq] at h'
    obtain ⟨rfl, rfl⟩ := h'
    exact ⟨0, by simp, by simp, by omega, by omega⟩
  | succ fuel ih =>
    intro step ms mg ms' mg' h
    unfold deficitLoop at h
    split_ifs at h with hm
    · obtain ⟨n, hn1, hn2, hn3, hn4⟩ := ih step (ms + step) (mg + 1) ms' mg' h
      refine ⟨n + 1, ?_, ?_, hn3, ?_⟩
      · rw [hn1]; push_cast; ring
      · rw [hn2]; push_cast; ring
      · intro k hk
        match k with
        | 0 => simpa using hm
        | j + 1 =>
          have := hn4 j (by omega)
          calc ms + ((j : ℤ) + 1) * step = ms + step + j * step := by ring
            _ < 0 := this
    · injection h with h'
      rw [Prod.mk.injEq] at h'
      obtain ⟨rfl, rfl⟩ := h'
      exact ⟨0, by simp, by simp, by omega, by omega⟩

lemma deficitLoop_term (step : ℤ) (hstep : 1 ≤ step) :
    ∀ fuel ms mg, (-ms).toNat ≤ fuel → ∃ r, deficitLoop fuel step ms mg = some r := by
  intro fuel
  induction fuel with
  | zero =>
    intro ms mg h
    exact ⟨(ms, mg), by unfold deficitLoop; rw [if_neg (by omega)]⟩
  | succ fuel ih =>
    intro ms mg h
    by_cases hm : ms < 0
    · obtain ⟨r, hr⟩ := ih (ms + step) (mg + 1) (by omega)
      exact ⟨r, by unfold deficitLoop; rw [if_pos hm]; exact hr⟩
    · exact ⟨(ms, mg), by unfold deficitLoop; rw [if_neg hm]⟩

lemma deficitLoop_stuck (step : ℤ) (hstep : step ≤ 0) :
    ∀ fuel ms mg, ms < 0 → deficitLoop fuel step ms mg = none := by
  intro fuel
  induction fuel with
  | zero => intro ms mg hm; unfold deficitLoop; rw [if_pos hm]
  | succ fuel ih =>
    intro ms mg hm
    unfold deficitLoop
    rw [if_pos hm]
    exact ih (ms + step) (mg + 1) (by omega)

lemma accrueDeficit_eq (s : Fsm) (delta : ℕ) :
    accrueDeficit s delta =
      match deficitLoop ((s.deficit_ms_remain - (delta : ℤ)).natAbs + 1)
          (Int.tdiv 86400 s.grams_per_day)
          (s.deficit_ms_remain - (delta : ℤ)) s.deficit_mg with
      | none => none
      | some (ms, mg) => some { s with deficit_ms_remain := ms, deficit_mg := mg } := rfl

lemma accrueDeficit_spec (s : Fsm) (delta : ℕ) (s' : Fsm)
    (h : accrueDeficit s delta = some s') :
    ∃ n : ℕ,
      s' = { s with
              deficit_ms_remain := s.deficit_ms_remain - delta
                + n * Int.tdiv 86400 s.grams_per_day
              deficit_mg := s.deficit_mg + n } ∧
      0 ≤ s'.deficit_ms_remain ∧
      ∀ k : ℕ, k < n →
        s.deficit_ms_remain - delta + k * Int.tdiv 86400 s.grams_per_day < 0 := by
  rw [accrueDeficit_eq] at h
  rcases hl : deficitLoop ((s.deficit_ms_remain - (delta : ℤ)).natAbs + 1)
      (Int.tdiv 86400 s.grams_per_day)
      (s.deficit_ms_remain - (delta : ℤ)) s.deficit_mg with _ | ⟨ms, mg⟩ <;>
    simp only [hl] at h
  case none => exact Option.noConfusion h
  case some =>
    obtain ⟨n, hn1, hn2, hn3, hn4⟩ := deficitLoop_spec _ _ _ _ _ _ hl
    injection h with h'
    subst h'
    exact ⟨n, by simp [hn1, hn2], by simpa using hn3, hn4⟩

lemma step_ge_one (g : ℤ) (h1 : 0 < g) (h2 : g ≤ 86400) : 1 ≤ Int.tdiv 86400 g := by
  rw [Int.tdiv_eq_ediv (by omega) (by omega)]
  have := Int.ediv_le_ediv h1 h2
  simpa [Int.ediv_self (by omega : g ≠ 0)] using this

lemma accrueDeficit_total (s : Fsm) (delta : ℕ)
    (h1 : 0 < s.grams_per_day) (h2 : s.grams_per_day ≤ 86400) :
    ∃ s', accrueDeficit s delta = some s' := by
  have hstep := step_ge_one s.grams_per_day h1 h2
  obtain ⟨⟨ms, mg⟩, hr⟩ :=
    deficitLoop_term _ hstep ((s.deficit_ms_remain - (delta : ℤ)).natAbs + 1)
      (s.deficit_ms_remain - (delta : ℤ)) s.deficit_mg (by omega)
  exact ⟨_, by rw [accrueDeficit_eq, hr]⟩

end StateMachine

namespace StateMachine

@[simp] lemma transition_state (s : Fsm) (st : State) : (transition s st).state = st := rfl

@[simp] lemma transition_mst (s : Fsm) (st : State) :
    (transition s st).millis_since_transition = 0 := rfl

@[simp] lemma transition_limit (s : Fsm) (st : State) :
    (transition s st).error_limit_switch = s.error_limit_switch := rfl

@[simp] lemma transition_maint (s : Fsm) (st : State) :
    (transition s st).maintenance_mode = s.maintenance_mode := rfl

@[simp] lemma transition_fsr (s : Fsm) (st : State) :
    (transition s st).feed_sensor_retries = s.feed_sensor_retries := rfl

@[simp] lemma transition_fjr (s : Fsm) (st : State) :
    (transition s st).feed_jammed_retries = s.feed_jammed_retries := rfl

@[simp] lemma transition_report (s : Fsm) (st : State) :
    (transition s st).feed_report = s.feed_report := rfl

@[simp] lemma transition_msfa (s : Fsm) (st : State) :
    (transition s st).millis_since_feed_attempt = s.millis_since_feed_attempt := rfl

@[simp] lemma transition_thr (s : Fsm) (st : State) :
    (transition s st).deficit_threshold_mg = s.deficit_threshold_mg := rfl

@[simp] lemma tickTimers_state (s : Fsm) (d : ℕ) : (tickTimers s d).state = s.state := by
  simp only [tickTimers]; split_ifs <;> rfl

@[simp] lemma tickTimers_maint (s : Fsm) (d : ℕ) :
    (tickTimers s d).maintenance_mode = s.maintenance_mode := by
  simp only [tickTimers]; split_ifs <;> rfl

@[simp] lemma tickTimers_mst (s : Fsm) (d : ℕ) :
    (tickTimers s d).millis_since_transition = s.millis_since_transition + d := by
  simp only [tickTimers]; split_ifs <;> rfl

@[simp] lemma tickTimers_msfa (s : Fsm) (d : ℕ) :
    (tickTimers s d).millis_since_feed_attempt = s.millis_since_feed_attempt + d := by
  simp only [tickTimers]; split_ifs <;> rfl

@[simp] lemma tickTimers_retries (s : Fsm) (d : ℕ) :
    (tickTimers s d).state_retries = s.state_retries := by
  simp only [tickTimers]; split_ifs <;> rfl

@[simp] lemma tickTimers_fsr (s : Fsm) (d : ℕ) :
    (tickTimers s d).feed_sensor_retries = s.feed_sensor_retries := by
  simp only [tickTimers]; split_ifs <;> rfl

@[simp] lemma tickTimers_fjr (s : Fsm) (d : ℕ) :
    (tickTimers s d).feed_jammed_retries = s.feed_jammed_retries := by
  simp only [tickTimers]; split_ifs <;> rfl

@[simp] lemma tickTimers_limit (s : Fsm) (d : ℕ) :
    (tickTimers s d).error_limit_switch = s.error_limit_switch := by
  simp only [tickTimers]; split_ifs <;> rfl

@[simp] lemma tickTimers_eto (s : Fsm) (d : ℕ) :
    (tickTimers s d).error_loadcell_timeout = s.error_loadcell_timeout := by
  simp only [tickTimers]; split_ifs <;> rfl

@[simp] lemma tickTimers_ers (s : Fsm) (d : ℕ) :
    (tickTimers s d).error_reservoir_stddev = s.error_reservoir_stddev := by
  simp only [tickTimers]; split_ifs <;> rfl

@[simp] lemma tickTimers_ebs (s : Fsm) (d : ℕ) :
    (tickTimers s d).error_bowl_stddev = s.error_bowl_stddev := by
  simp only [tickTimers]; split_ifs <;> rfl

@[simp] lemma tickTimers_eld (s : Fsm) (d : ℕ) :
    (tickTimers s d).error_loadcell_disagree = s.error_loadcell_disagree := by
  simp only [tickTimers]; split_ifs <;> rfl

@[simp] lemma tickTimers_elu (s : Fsm) (d : ℕ) :
    (tickTimers s d).error_loadcell_unreasonable = s.error_loadcell_unreasonable := by
  simp only [tickTimers]; split_ifs <;> rfl

@[simp] lemma tickTimers_thr (s : Fsm) (d : ℕ) :
    (tickTimers s d).deficit_threshold_mg = s.deficit_threshold_mg := by
  simp only [tickTimers]; split_ifs <;> rfl

@[simp] lemma tickTimers_report (s : Fsm) (d : ℕ) :
    (tickTimers s d).feed_report = s.feed_report := by
  simp only [tickTimers]; split_ifs <;> rfl

@[simp] lemma tickTimers_limp (s : Fsm) (d : ℕ) :
    loadcell_limp_mode (tickTimers s d) = loadcell_limp_mode s := by
  simp [loadcell_limp_mode]

@[simp] lemma handle_state (s : Fsm) (i : Input) :
    (handle_loadcell_readout s i).2.state = s.state := by
  unfold handle_loadcell_readout
  split_ifs <;> first | rfl | (cases s.lcSensor <;> rfl)

@[simp] lemma handle_retries (s : Fsm) (i : Input) :
    (handle_loadcell_readout s i).2.state_retries = s.state_retries := by
  unfold handle_loadcell_readout
  split_ifs <;> first | rfl | (cases s.lcSensor <;> rfl)

@[simp] lemma handle_fsr (s : Fsm) (i : Input) :
    (handle_loadcell_readout s i).2.feed_sensor_retries = s.feed_sensor_retries := by
  unfold handle_loadcell_readout
  split_ifs <;> first | rfl | (cases s.lcSensor <;> rfl)

@[simp] lemma handle_maint (s : Fsm) (i : Input) :
    (handle_loadcell_readout s i).2.maintenance_mode = s.maintenance_mode := by
  unfold handle_loadcell_readout
  split_ifs <;> first | rfl | (cases s.lcSensor <;> rfl)

@[simp] lemma handle_thr (s : Fsm) (i : Input) :
    (handle_loadcell_readout s i).2.deficit_threshold_mg = s.deficit_threshold_mg := by
  unfold handle_loadcell_readout
  split_ifs <;> first | rfl | (cases s.lcSensor <;> rfl)

lemma handle_done (s : Fsm) (i : Input) (hto : s.error_loadcell_timeout = false)
    (hmst : s.millis_since_transition ≤ 10000) (hbusy : i.lcBusy = false) :
    (handle_loadcell_readout s i).1 = true ∧
    (handle_loadcell_readout s i).2.feed_report = s.feed_report ∧
    (handle_loadcell_readout s i).2.millis_since_feed_attempt
      = s.millis_since_feed_attempt ∧
    (handle_loadcell_readout s i).2.error_loadcell_timeout = s.error_loadcell_timeout ∧
    (handle_loadcell_readout s i).2.error_reservoir_stddev = s.error_reservoir_stddev ∧
    (handle_loadcell_readout s i).2.error_bowl_stddev = s.error_bowl_stddev ∧
    (handle_loadcell_readout s i).2.error_loadcell_disagree = s.error_loadcell_disagree ∧
    (handle_loadcell_readout s i).2.error_loadcell_unreasonable
      = s.error_loadcell_unreasonable := by
  unfold handle_loadcell_readout
  rw [if_neg (by simp [hto]; omega), if_neg (by simp [hbusy])]
  cases s.lcSensor <;> simp

lemma update_destruct (s : Fsm) (i : Input) (s' : Fsm) (h : update s i = some s') :
    ∃ n : ℕ,
      s' = stepState
        (tickTimers
          { s with
            deficit_ms_remain := s.deficit_ms_remain - i.delta
              + n * Int.tdiv 86400 s.grams_per_day
            deficit_mg := s.deficit_mg + n } i.delta) i := by
  unfold update at h
  rcases ha : accrueDeficit s i.delta with _ | s1 <;> rw [ha] at h
  · exact Option.noConfusion h
  · injection h with h'
    obtain ⟨n, rfl, _, _⟩ := accrueDeficit_spec s i.delta s1 ha
    exact ⟨n, h'.symm⟩

end StateMachine

namespace StateMachine

/-- C1 (counterexample): on the initial state (`grams_per_day = 60`,
`deficit_ms_remain = 0`) a 1 ms tick leaves the countdown at
`-1 + 86400 / 60 = 1439`: the loop replenishes the countdown by
`86400 / grams_per_day` milliseconds per iteration, not by
`86400000 / grams_per_day = 1440000` as the claim states (which would
have left `1439999`). -/
theorem C1_counterexample :
    (update initState tick1ms).map (fun t => t.deficit_ms_remain) = some 1439 ∧
    (1439 : ℤ) ≠ 0 - 1 + 86400000 / 60 := by decide

/-- C1 (amended): on every call to `update()`, after subtracting the
elapsed delta from `deficit_ms_remain`, each iteration in which the
countdown is negative adds exactly 1 milligram to `deficit_mg` and
replenishes the countdown by `86400 / grams_per_day` milliseconds
(C++ truncating division), looping until the countdown is
non-negative. -/
theorem C1_accrual_amended (s : Fsm) (delta : ℕ) (s' : Fsm)
    (h : accrueDeficit s delta = some s') :
    ∃ n : ℕ,
      s'.deficit_ms_remain
        = s.deficit_ms_remain - delta + n * Int.tdiv 86400 s.grams_per_day ∧
      s'.deficit_mg = s.deficit_mg + n ∧
      0 ≤ s'.deficit_ms_remain ∧
      ∀ k : ℕ, k < n →
        s.deficit_ms_remain - delta + k * Int.tdiv 86400 s.grams_per_day < 0 := by
  obtain ⟨n, rfl, h2, h3⟩ := accrueDeficit_spec s delta s' h
  exact ⟨n, by simp, by simp, h2, h3⟩

/-- C1 witness: the amended accrual theorem applied to the initial state
and a 1 ms tick. -/
theorem C1_accrual_amended_witness :
    ∃ n : ℕ,
      sC1res.deficit_ms_remain
        = initState.deficit_ms_remain - (1 : ℕ)
          + n * Int.tdiv 86400 initState.grams_per_day ∧
      sC1res.deficit_mg = initState.deficit_mg + n ∧
      0 ≤ sC1res.deficit_ms_remain ∧
      ∀ k : ℕ, k < n →
        initState.deficit_ms_remain - (1 : ℕ)
          + k * Int.tdiv 86400 initState.grams_per_day < 0 :=
  C1_accrual_amended initState 1 sC1res (by decide)

/-- C2 (counterexample): `grams_per_day = 100000` is strictly positive,
yet on a 1 ms tick `update()` never returns: the replenishment step
`86400 / 100000` truncates to 0, so the countdown stays negative forever
(`none` models divergence of the loop, and `deficitLoop_stuck` shows no
amount of fuel produces a result when the step is non-positive). -/
theorem C2_counterexample :
    (0 : ℤ) < sC2.grams_per_day ∧ update sC2 tick1ms = none := by decide

/-- C2 (amended): for every `grams_per_day` in (0, 86400] and every
non-negative elapsed delta, the deficit-accrual loop terminates after at
most `|deficit_ms_remain - delta|` increments, and `deficit_ms_remain`
is non-negative when `update()` returns. -/
theorem C2_termination_amended (s : Fsm) (i : Input)
    (h1 : 0 < s.grams_per_day) (h2 : s.grams_per_day ≤ 86400) :
    ∃ s1 n s', accrueDeficit s i.delta = some s1 ∧
      s1.deficit_mg = s.deficit_mg + n ∧
      (n : ℤ) ≤ ((s.deficit_ms_remain - (i.delta : ℤ)).natAbs : ℤ) ∧
      update s i = some s' ∧ 0 ≤ s'.deficit_ms_remain := by
  have hstep := step_ge_one s.grams_per_day h1 h2
  obtain ⟨s1, hs1⟩ := accrueDeficit_total s i.delta h1 h2
  obtain ⟨n, hrec, hnn, hks⟩ := accrueDeficit_spec s i.delta s1 hs1
  have hbound : (n : ℤ) ≤ ((s.deficit_ms_remain - (i.delta : ℤ)).natAbs : ℤ) := by
    rcases Nat.eq_zero_or_pos n with hn0 | hn0
    · subst hn0; simp
    · have hk := hks (n - 1) (by omega)
      have hcast : ((n - 1 : ℕ) : ℤ) = (n : ℤ) - 1 := by omega
      rw [hcast] at hk
      have h1' : (0 : ℤ) ≤ (n : ℤ) - 1 := by omega
      have h2' : ((n : ℤ) - 1)
          ≤ ((n : ℤ) - 1) * Int.tdiv 86400 s.grams_per_day :=
        le_mul_of_one_le_right h1' hstep
      have hlt : (n : ℤ) - 1 < -(s.deficit_ms_remain - (i.delta : ℤ)) := by linarith
      omega
  refine ⟨s1, n, stepState (tickTimers s1 i.delta) i, hs1, ?_, hbound, ?_, ?_⟩
  · subst hrec; simp
  · unfold update; rw [hs1]
  · rw [(stepState_core _ i).1, tickTimers_ms]
    subst hrec
    simpa using hnn

/-- C2 witness: the amended termination theorem applied to the initial
state (60 g/day) and a 1 ms tick. -/
theorem C2_termination_amended_witness :
    ∃ s1 n s', accrueDeficit initState tick1ms.delta = some s1 ∧
      s1.deficit_mg = initState.deficit_mg + n ∧
      (n : ℤ) ≤ ((initState.deficit_ms_remain - (tick1ms.delta : ℤ)).natAbs : ℤ) ∧
      update initState tick1ms = some s' ∧ 0 ≤ s'.deficit_ms_remain :=
  C2_termination_amended initState tick1ms (by decide) (by decide)

/-- C9 (counterexample): the buffer of 32 samples all equal to -1 has
exact mean -1, whose nearest integer is -1, yet the biased truncating
division computes `(-32 + 16) trunc-div 32 = 0`: the bias idiom does not
realize round-to-nearest for this negative-sum buffer. -/
theorem C9_counterexample :
    (List.replicate 32 (-1 : ℤ)).sum = -32 ∧
    Loadcell.mean_raw (List.replicate 32 (-1 : ℤ)) = 0 ∧
    Loadcell.roundHalfUp ((-32 : ℚ) / 32) = -1 ∧
    (0 : ℤ) ≠ -1 := by
  refine ⟨by decide, by decide, ?_, by decide⟩
  norm_num [Loadcell.roundHalfUp]

/-- C9 (amended): the biased integer division in `Loadcell::update()`
realizes round-to-nearest (ties up) of the exact arithmetic mean for
every 32-sample buffer whose sum is at least `-NUM_SAMPLES / 2 = -16`
(in particular for some negative sums); below that the truncating
division rounds toward zero instead. -/
theorem C9_mean_rounding_amended (samples : List ℤ) (_hlen : samples.length = 32)
    (hsum : -16 ≤ samples.sum) :
    Loadcell.mean_raw samples = Loadcell.roundHalfUp ((samples.sum : ℚ) / 32) := by
  unfold Loadcell.mean_raw Loadcell.roundHalfUp Loadcell.NUM_SAMPLES
  have h16 : Int.tdiv 32 2 = 16 := by decide
  rw [h16, Int.tdiv_eq_ediv (by omega) (by norm_num)]
  have key : (samples.sum : ℚ) / 32 + 1 / 2
      = ((16 + samples.sum : ℤ) : ℚ) / ((32 : ℕ) : ℚ) := by
    push_cast
    ring
  rw [key, Rat.floor_intCast_div_natCast]
  norm_num

/-- C9 witness: the amended rounding theorem applied to the constant
buffer of 32 samples equal to 5. -/
theorem C9_mean_rounding_amended_witness :
    Loadcell.mean_raw (List.replicate 32 (5 : ℤ))
      = Loadcell.roundHalfUp (((List.replicate 32 (5 : ℤ)).sum : ℚ) / 32) :=
  C9_mean_rounding_amended (List.replicate 32 (5 : ℤ)) (by decide) (by decide)

end StateMachine

namespace StateMachine

lemma run_sync_step (t : Fsm) (i : Input) (hts : t.state = State.FEED_RUN_SYNC)
    (hfl : t.error_limit_switch = false) :
    stepState t i =
      if i.limit = false then transition t State.FEED_RUN_A
      else if t.millis_since_transition < FEED_RUN_TIMEOUT_MILLIS then t
      else transition { t with error_limit_switch := true } State.FEED_POST_WAIT := by
  simp only [stepState, hts, hfl]
  cases hl : i.limit <;> simp [hl]

/-- C3 (counterexample): in `FEED_RUN_SYNC` with the fault flag clear
and the limit switch still asserted when the 3 s timeout expires, the
machine proceeds to `FEED_POST_WAIT`, not to `FEED_RUN_A` as the claim
states. -/
theorem C3_counterexample :
    sC3.state = State.FEED_RUN_SYNC ∧ sC3.error_limit_switch = false ∧
    tickLimit.limit = true ∧
    (update sC3 tickLimit).map (fun t => t.state) = some State.FEED_POST_WAIT ∧
    State.FEED_POST_WAIT ≠ State.FEED_RUN_A := by decide

/-- C3 (amended): in state `FEED_RUN_SYNC` with the limit-switch-fault
flag clear: on a tick where the limit switch is not asserted the machine
transitions to `FEED_RUN_A`; while the switch stays asserted within the
3-second phase timeout the machine stays in `FEED_RUN_SYNC`; once the
timeout elapses it sets the limit-switch-fault flag and proceeds to
`FEED_POST_WAIT` (skipping the remaining motor phases). -/
theorem C3_run_sync_amended (s : Fsm) (i : Input) (s' : Fsm)
    (h : update s i = some s') (hst : s.state = State.FEED_RUN_SYNC)
    (hflag : s.error_limit_switch = false) :
    (i.limit = false → s'.state = State.FEED_RUN_A ∧ s'.error_limit_switch = false) ∧
    (i.limit = true → s.millis_since_transition + i.delta < FEED_RUN_TIMEOUT_MILLIS →
      s'.state = State.FEED_RUN_SYNC ∧ s'.error_limit_switch = false) ∧
    (i.limit = true → FEED_RUN_TIMEOUT_MILLIS ≤ s.millis_since_transition + i.delta →
      s'.state = State.FEED_POST_WAIT ∧ s'.error_limit_switch = true) := by
  obtain ⟨n, rfl⟩ := update_destruct s i s' h
  rw [run_sync_step _ i (by simp [hst]) (by simp [hflag])]
  refine ⟨fun hl => ?_, fun hl hlt => ?_, fun hl hge => ?_⟩
  · rw [if_pos hl]
    simp [hflag]
  · rw [if_neg (by simp [hl]), if_pos (by simpa using hlt)]
    simp [hst, hflag]
  · rw [if_neg (by simp [hl]), if_neg (by simpa using hge)]
    simp

/-- C3 witness: the amended theorem applied to a state that has sat in
`FEED_RUN_SYNC` for 3 seconds with the limit switch asserted. -/
theorem C3_run_sync_amended_witness :
    sC3res.state = State.FEED_POST_WAIT ∧ sC3res.error_limit_switch = true :=
  (C3_run_sync_amended sC3 tickLimit sC3res (by decide) (by decide) (by decide)).2.2
    (by decide) (by decide)

/-- C4: with no limp-mode flag set, `estimate_dispensed_weight_grams`
computes the reservoir and bowl deltas; if they disagree by more than
5 g it sets the disagreement flag and returns the nominal 9 g; otherwise
it averages them, and if the average is below -2 g or above 27 g it sets
the unreasonable flag and returns 9 g, else it returns the average. -/
theorem C4_estimate_weight (s : Fsm) (h : loadcell_limp_mode s = none) :
    (|s.feed_reservoir_pre - s.feed_reservoir_post
        - (s.feed_bowl_post - s.feed_bowl_pre)| > 5 →
      estimate_dispensed_weight_grams s
        = (9, { s with error_loadcell_disagree := true })) ∧
    (|s.feed_reservoir_pre - s.feed_reservoir_post
        - (s.feed_bowl_post - s.feed_bowl_pre)| ≤ 5 →
      ((s.feed_reservoir_pre - s.feed_reservoir_post
          + (s.feed_bowl_post - s.feed_bowl_pre)) / 2 < -2 ∨
        (s.feed_reservoir_pre - s.feed_reservoir_post
          + (s.feed_bowl_post - s.feed_bowl_pre)) / 2 > 27) →
      estimate_dispensed_weight_grams s
        = (9, { s with error_loadcell_unreasonable := true })) ∧
    (|s.feed_reservoir_pre - s.feed_reservoir_post
        - (s.feed_bowl_post - s.feed_bowl_pre)| ≤ 5 →
      -2 ≤ (s.feed_reservoir_pre - s.feed_reservoir_post
          + (s.feed_bowl_post - s.feed_bowl_pre)) / 2 →
      (s.feed_reservoir_pre - s.feed_reservoir_post
          + (s.feed_bowl_post - s.feed_bowl_pre)) / 2 ≤ 27 →
      estimate_dispensed_weight_grams s
        = ((s.feed_reservoir_pre - s.feed_reservoir_post
            + (s.feed_bowl_post - s.feed_bowl_pre)) / 2, s)) := by
  have hnone : (loadcell_limp_mode s).isSome = false := by rw [h]; rfl
  refine ⟨fun hd => ?_, fun hd hu => ?_, fun hd hl2 hr => ?_⟩ <;>
    simp only [estimate_dispensed_weight_grams, hnone, Bool.false_eq_true, if_false,
      FEED_MAX_DISAGREE_GRAMS, FEED_ASSUMED_WEIGHT_GRAMS]
  · rw [if_pos hd]
  · have hu' : (s.feed_reservoir_pre - s.feed_reservoir_post
          + (s.feed_bowl_post - s.feed_bowl_pre)) / 2 < -2 ∨
        (s.feed_reservoir_pre - s.feed_reservoir_post
          + (s.feed_bowl_post - s.feed_bowl_pre)) / 2 > 9 * 3 := by
      rcases hu with hu | hu
      · exact Or.inl hu
      · exact Or.inr (by linarith)
    rw [if_neg (not_lt.mpr hd), if_pos hu']
  · have hc : ¬((s.feed_reservoir_pre - s.feed_reservoir_post
          + (s.feed_bowl_post - s.feed_bowl_pre)) / 2 < -2 ∨
        (s.feed_reservoir_pre - s.feed_reservoir_post
          + (s.feed_bowl_post - s.feed_bowl_pre)) / 2 > 9 * 3) := by
      push_neg
      exact ⟨hl2, by linarith⟩
    rw [if_neg (not_lt.mpr hd), if_neg hc]

/-- C4 witness: the spec's disagreement example, `pre_reservoir = 500`,
`post_reservoir = 491`, `pre_bowl = 10`, `post_bowl = 10.5`: the deltas
9 g and 0.5 g differ by 8.5 g > 5 g, so the disagreement flag is set and
the nominal 9 g is returned. -/
theorem C4_estimate_weight_witness :
    estimate_dispensed_weight_grams sC4
      = (9, { sC4 with error_loadcell_disagree := true }) :=
  (C4_estimate_weight sC4 (by decide)).1 (by norm_num [sC4, initState, abs])

end StateMachine

namespace StateMachine

/-- C5: over any single `update()` call (command-surface calls excluded
by construction), `deficit_mg` changes by a non-negative accrual amount,
except when the tick ends in `complete_feed`, which additionally
decreases it by exactly the computed dispensed weight converted to
integer milligrams; iterating this over a sequence of calls gives the
claimed temporal property. -/
theorem C5_deficit_monotonicity (s : Fsm) (i : Input) (s' : Fsm)
    (h : update s i = some s') :
    ∃ a : ℤ, 0 ≤ a ∧
      (s'.deficit_mg = s.deficit_mg + a ∨
        ∃ t : Fsm, t.deficit_mg = s.deficit_mg + a ∧ s' = complete_feed t i.now ∧
          s'.deficit_mg
            = t.deficit_mg - truncQ ((estimate_dispensed_weight_grams t).1 * 1000)) := by
  unfold update at h
  rcases ha : accrueDeficit s i.delta with _ | s1 <;> rw [ha] at h
  · exact Option.noConfusion h
  · injection h with h'
    obtain ⟨n, hrec, -, -⟩ := accrueDeficit_spec s i.delta s1 ha
    have hmid : (tickTimers s1 i.delta).deficit_mg = s.deficit_mg + n := by
      rw [tickTimers_mg]
      subst hrec
      simp
    rcases (stepState_core (tickTimers s1 i.delta) i).2.2 with hc | ⟨t, -, -, htmg, heq⟩
    · exact ⟨n, by omega, Or.inl (by rw [← h', hc, hmid])⟩
    · refine ⟨n, by omega, Or.inr ⟨t, by rw [htmg, hmid], ?_, ?_⟩⟩
      · rw [← h', heq]
      · rw [← h', heq, (complete_feed_fields t i.now).2.2]

/-- C5 witness: the monotonicity theorem applied to the initial state
and a 0 ms tick. -/
theorem C5_deficit_monotonicity_witness :
    ∃ a : ℤ, 0 ≤ a ∧
      (sC5res.deficit_mg = initState.deficit_mg + a ∨
        ∃ t : Fsm, t.deficit_mg = initState.deficit_mg + a ∧
          sC5res = complete_feed t tick0ms.now ∧
          sC5res.deficit_mg
            = t.deficit_mg - truncQ ((estimate_dispensed_weight_grams t).1 * 1000)) :=
  C5_deficit_monotonicity initState tick0ms sC5res (by decide)

/-- C6: in `complete_feed`, a feed whose estimated dispensed weight is
at or below 30 % of the nominal 9 g (2.7 g) increments the jam-retry
counter, and when the counter reaches 3 the maintenance mode becomes
Jammed, making `need_to_feed` block with reason Jammed; a feed above
30 % of nominal resets the counter to 0 and, if the mode was Jammed,
restores Operational. -/
theorem C6_jam_escalation (s : Fsm) (now : ℕ) :
    ((estimate_dispensed_weight_grams s).1 ≤ 27 / 10 →
      (complete_feed s now).feed_jammed_retries = s.feed_jammed_retries + 1 ∧
      (FEED_MAX_RETRIES ≤ s.feed_jammed_retries + 1 →
        (complete_feed s now).maintenance_mode = MaintenanceMode.JAMMED ∧
        need_to_feed (complete_feed s now) = FeedBlockReason.JAMMED) ∧
      (s.feed_jammed_retries + 1 < FEED_MAX_RETRIES →
        (complete_feed s now).maintenance_mode = s.maintenance_mode)) ∧
    (27 / 10 < (estimate_dispensed_weight_grams s).1 →
      (complete_feed s now).feed_jammed_retries = 0 ∧
      (s.maintenance_mode = MaintenanceMode.JAMMED →
        (complete_feed s now).maintenance_mode = MaintenanceMode.OPERATIONAL) ∧
      (s.maintenance_mode ≠ MaintenanceMode.JAMMED →
        (complete_feed s now).maintenance_mode = s.maintenance_mode)) := by
  obtain ⟨-, -, -, h4, h5⟩ := estimate_fields s
  have hth : FEED_ASSUMED_WEIGHT_GRAMS * (3 / 10) = 27 / 10 := by
    norm_num [FEED_ASSUMED_WEIGHT_GRAMS]
  simp only [complete_feed]
  split_ifs with hw hj hk
  · rw [hth] at hw
    refine ⟨fun hle => absurd hw (not_lt.mpr hle), fun _ => ⟨rfl, fun hjam => ?_, ?_⟩⟩
    · simp
    · intro hne
      rw [h5] at hj
      exact absurd hj hne
  · rw [hth] at hw
    refine ⟨fun hle => absurd hw (not_lt.mpr hle), fun _ => ⟨rfl, fun hjam => ?_, fun _ => ?_⟩⟩
    · rw [h5] at hj
      exact absurd hjam hj
    · simpa using h5
  · rw [hth] at hw
    simp only [not_lt] at hw
    refine ⟨fun _ => ⟨by simpa using h4, fun _ => ⟨by simp, ?_⟩, fun hlt => ?_⟩,
      fun hgt => absurd hgt (not_lt.mpr hw)⟩
    · simp [need_to_feed]
    · simp only [h4] at hk
      exact absurd hk (by omega)
  · rw [hth] at hw
    simp only [not_lt] at hw
    refine ⟨fun _ => ⟨by simpa using h4, fun hge => ?_, fun _ => by simpa using h5⟩,
      fun hgt => absurd hgt (not_lt.mpr hw)⟩
    simp only [h4] at hk
    exact absurd hge (by omega)

/-- C6 witness: the jam-escalation theorem applied to the initial state
(estimated weight 0 g, below the 2.7 g threshold; jam counter goes from
0 to 1, mode stays Operational). -/
theorem C6_jam_escalation_witness :
    (complete_feed initState 0).feed_jammed_retries
      = initState.feed_jammed_retries + 1 ∧
    (complete_feed initState 0).maintenance_mode = initState.maintenance_mode := by
  have h := (C6_jam_escalation initState 0).1
    (by norm_num [estimate_dispensed_weight_grams, loadcell_limp_mode, initState,
      FEED_MAX_DISAGREE_GRAMS, FEED_ASSUMED_WEIGHT_GRAMS, abs])
  exact ⟨h.1, h.2.2 (by norm_num [initState, FEED_MAX_RETRIES])⟩

end StateMachine

namespace StateMachine

lemma limp_none_timeout (s : Fsm) (h : loadcell_limp_mode s = none) :
    s.error_loadcell_timeout = false := by
  unfold loadcell_limp_mode at h
  split_ifs at h
  simp_all

lemma need_to_feed_cooldown (u : Fsm)
    (h1 : u.maintenance_mode = MaintenanceMode.OPERATIONAL)
    (h2 : u.deficit_threshold_mg ≤ u.deficit_mg)
    (h3 : u.millis_since_feed_attempt < FEED_COOLDOWN_MILLIS) :
    need_to_feed u = FeedBlockReason.COOLDOWN := by
  unfold need_to_feed
  rw [h1]
  rw [if_neg (not_lt.mpr h2), if_pos h3]

lemma pre_measure_reservoir_abort (t : Fsm) (i : Input)
    (hts : t.state = State.FEED_PRE_MEASURE_RESERVOIR)
    (hlimp : loadcell_limp_mode t = none)
    (hmst : t.millis_since_transition ≤ 10000)
    (hbusy : i.lcBusy = false)
    (hsd : 1 ≤ i.lcStddev)
    (hretr : 5 ≤ t.state_retries)
    (hfsr : t.feed_sensor_retries ≤ FEED_MAX_RETRIES) :
    stepState t i =
      transition
        { (handle_loadcell_readout t i).2 with
          millis_since_feed_attempt := 0
          feed_sensor_retries := t.feed_sensor_retries + 1
          feed_report :=
            ⟨FeedResult.SENSOR_RETRY, ((t.feed_sensor_retries + 1 : ℕ) : ℤ), i.now⟩ }
        State.IDLE := by
  obtain ⟨hdone, -⟩ := handle_done t i (limp_none_timeout t hlimp) hmst hbusy
  simp only [stepState, hts]
  rw [if_pos (by rw [hlimp]; rfl)]
  simp only [hdone, Bool.not_true, Bool.false_eq_true, if_false]
  rw [if_neg (not_lt.mpr hsd), if_neg (by rw [handle_retries]; omega),
    if_pos (by rw [handle_fsr]; exact hfsr)]
  simp only [handle_fsr]

/-- C7: in the pre-feed reservoir measurement state, when a completed
readout is still noisy (stddev at least 1 g), the in-state retry limit
(5) is exhausted and the overall sensor-retry bound (3) is not yet
exceeded, the feed cycle aborts: a SensorRetry feed report is recorded
with the incremented retry count as its argument, the machine returns to
Idle, and `millis_since_feed_attempt` restarts at 0, so the aborted
attempt counts as a feed attempt and `need_to_feed` reports Cooldown
until the full 5-minute cooldown elapses again. -/
theorem C7_sensor_retry_abort (s : Fsm) (i : Input) (s' : Fsm)
    (h : update s i = some s')
    (hst : s.state = State.FEED_PRE_MEASURE_RESERVOIR)
    (hlimp : loadcell_limp_mode s = none)
    (hmst : s.millis_since_transition + i.delta ≤ 10000)
    (hbusy : i.lcBusy = false)
    (hsd : 1 ≤ i.lcStddev)
    (hretr : 5 ≤ s.state_retries)
    (hfsr : s.feed_sensor_retries ≤ FEED_MAX_RETRIES) :
    s'.state = State.IDLE ∧
    s'.feed_report.result = FeedResult.SENSOR_RETRY ∧
    s'.feed_report.arg = ((s.feed_sensor_retries + 1 : ℕ) : ℤ) ∧
    s'.feed_sensor_retries = s.feed_sensor_retries + 1 ∧
    s'.millis_since_feed_attempt = 0 ∧
    s'.maintenance_mode = s.maintenance_mode ∧
    (∀ u : Fsm, u.maintenance_mode = MaintenanceMode.OPERATIONAL →
      u.deficit_threshold_mg ≤ u.deficit_mg →
      u.millis_since_feed_attempt < FEED_COOLDOWN_MILLIS →
      need_to_feed u = FeedBlockReason.COOLDOWN) ∧
    (s'.maintenance_mode = MaintenanceMode.OPERATIONAL →
      s'.deficit_threshold_mg ≤ s'.deficit_mg →
      need_to_feed s' = FeedBlockReason.COOLDOWN) := by
  unfold update at h
  rcases ha : accrueDeficit s i.delta with _ | s1 <;> rw [ha] at h
  · exact Option.noConfusion h
  · injection h with h'
    subst h'
    obtain ⟨n, hs1, -, -⟩ := accrueDeficit_spec s i.delta s1 ha
    have t1 : (tickTimers s1 i.delta).state = State.FEED_PRE_MEASURE_RESERVOIR := by
      rw [tickTimers_state, hs1]
      simpa using hst
    have t2 : loadcell_limp_mode (tickTimers s1 i.delta) = none := by
      rw [tickTimers_limp, hs1]
      exact hlimp
    have t3 : (tickTimers s1 i.delta).millis_since_transition ≤ 10000 := by
      rw [tickTimers_mst, hs1]
      simpa using hmst
    have t4 : 5 ≤ (tickTimers s1 i.delta).state_retries := by
      rw [tickTimers_retries, hs1]
      simpa using hretr
    have t5 : (tickTimers s1 i.delta).feed_sensor_retries ≤ FEED_MAX_RETRIES := by
      rw [tickTimers_fsr, hs1]
      simpa using hfsr
    rw [pre_measure_reservoir_abort (tickTimers s1 i.delta) i t1 t2 t3 hbusy hsd t4 t5]
    have hfsr_eq : (tickTimers s1 i.delta).feed_sensor_retries = s.feed_sensor_retries := by
      simp [hs1]
    have hmm : (tickTimers s1 i.delta).maintenance_mode = s.maintenance_mode := by
      simp [hs1]
    refine ⟨by simp, by simp, by simp [hs1], by simp [hs1], by simp,
      by simp [hs1], fun u h1 h2 h3 => need_to_feed_cooldown u h1 h2 h3,
      fun h1 h2 => need_to_feed_cooldown _ h1 h2 (by norm_num [FEED_COOLDOWN_MILLIS])⟩

/-- C7 witness: the abort theorem applied to a state whose in-state
retry count is 5, with a noisy completed measurement. -/
theorem C7_sensor_retry_abort_witness :
    sC7res.state = State.IDLE ∧
    sC7res.feed_report.result = FeedResult.SENSOR_RETRY ∧
    sC7res.feed_report.arg = ((sC7.feed_sensor_retries + 1 : ℕ) : ℤ) ∧
    sC7res.feed_sensor_retries = sC7.feed_sensor_retries + 1 ∧
    sC7res.millis_since_feed_attempt = 0 ∧
    sC7res.maintenance_mode = sC7.maintenance_mode ∧
    (∀ u : Fsm, u.maintenance_mode = MaintenanceMode.OPERATIONAL →
      u.deficit_threshold_mg ≤ u.deficit_mg →
      u.millis_since_feed_attempt < FEED_COOLDOWN_MILLIS →
      need_to_feed u = FeedBlockReason.COOLDOWN) ∧
    (sC7res.maintenance_mode = MaintenanceMode.OPERATIONAL →
      sC7res.deficit_threshold_mg ≤ sC7res.deficit_mg →
      need_to_feed sC7res = FeedBlockReason.COOLDOWN) :=
  C7_sensor_retry_abort sC7 tickNoisy sC7res (by decide) (by decide) (by decide)
    (by decide) (by decide) (by decide) (by decide) (by decide)

end StateMachine

namespace StateMachine

/-- C8: `get_error_report` returns exactly the first matching condition
in the fixed priority order limit-switch-fault (Error), loadcell
limp-mode (Error), power-loss (Error), Jammed mode (Error),
jam-suspected (Warning), reservoir-low (Warning), else a null message
with severity Okay; a lower-priority condition never appears while a
higher-priority one is true. -/
theorem C8_error_report_priority (s : Fsm) :
    (s.error_limit_switch = true →
      get_error_report s = ⟨some "Motor timeout", ErrorSeverity.ERROR⟩) ∧
    (s.error_limit_switch = false → ∀ m : String, loadcell_limp_mode s = some m →
      get_error_report s = ⟨some m, ErrorSeverity.ERROR⟩) ∧
    (s.error_limit_switch = false → loadcell_limp_mode s = none →
      s.error_power_loss = true →
      get_error_report s = ⟨some "Power loss", ErrorSeverity.ERROR⟩) ∧
    (s.error_limit_switch = false → loadcell_limp_mode s = none →
      s.error_power_loss = false → s.maintenance_mode = MaintenanceMode.JAMMED →
      get_error_report s = ⟨some "Jammed/empty", ErrorSeverity.ERROR⟩) ∧
    (s.error_limit_switch = false → loadcell_limp_mode s = none →
      s.error_power_loss = false → s.maintenance_mode ≠ MaintenanceMode.JAMMED →
      s.feed_jammed_retries ≠ 0 →
      get_error_report s = ⟨some "Jammed/empty?", ErrorSeverity.WARNING⟩) ∧
    (s.error_limit_switch = false → loadcell_limp_mode s = none →
      s.error_power_loss = false → s.maintenance_mode ≠ MaintenanceMode.JAMMED →
      s.feed_jammed_retries = 0 → s.reservoir_mean < 250 →
      get_error_report s = ⟨some "Reservoir low", ErrorSeverity.WARNING⟩) ∧
    (s.error_limit_switch = false → loadcell_limp_mode s = none →
      s.error_power_loss = false → s.maintenance_mode ≠ MaintenanceMode.JAMMED →
      s.feed_jammed_retries = 0 → 250 ≤ s.reservoir_mean →
      get_error_report s = ⟨none, ErrorSeverity.OKAY⟩) := by
  unfold get_error_report
  refine ⟨fun h1 => by simp [h1], fun h1 m h2 => by simp [h1, h2],
    fun h1 h2 h3 => by simp [h1, h2, h3],
    fun h1 h2 h3 h4 => by simp [h1, h2, h3, h4],
    fun h1 h2 h3 h4 h5 => by simp [h1, h2, h3, h4, h5],
    fun h1 h2 h3 h4 h5 h6 => by simp [h1, h2, h3, h4, h5, h6],
    fun h1 h2 h3 h4 h5 h6 => by simp [h1, h2, h3, h4, h5, not_lt.mpr h6]⟩

/-- C8 witness: the priority theorem applied to a state with no error
condition at all, giving the Okay report. -/
theorem C8_error_report_priority_witness :
    get_error_report sC8ok = ⟨none, ErrorSeverity.OKAY⟩ :=
  (C8_error_report_priority sC8ok).2.2.2.2.2.2 rfl rfl rfl (by decide) rfl
    (by norm_num [sC8ok, initState])

lemma accrue_pow (s : Fsm) (delta : ℕ) (s1 : Fsm)
    (h : accrueDeficit s delta = some s1) :
    s1.error_power_loss = s.error_power_loss := by
  obtain ⟨n, rfl, -, -⟩ := accrueDeficit_spec s delta s1 h
  rfl

lemma update_pow (s : Fsm) (i : Input) (s' : Fsm) (h : update s i = some s') :
    s'.error_power_loss = s.error_power_loss := by
  unfold update at h
  rcases ha : accrueDeficit s i.delta with _ | s1 <;> rw [ha] at h
  · exact Option.noConfusion h
  · injection h with h'
    rw [← h', (stepState_core _ i).2.1, tickTimers_pow, accrue_pow s i.delta s1 ha]

lemma runUpdates_pow :
    ∀ (tr : List Input) (s s' : Fsm), runUpdates s tr = some s' →
      s'.error_power_loss = s.error_power_loss := by
  intro tr
  induction tr with
  | nil =>
    intro s s' h
    unfold runUpdates at h
    injection h with h'
    rw [h']
  | cons i rest ih =>
    intro s s' h
    unfold runUpdates at h
    rcases hu : update s i with _ | s1 <;> rw [hu] at h
    · exact Option.noConfusion h
    · rw [ih s1 s' h, update_pow s i s1 hu]

/-- C10: in the production build the power-loss flag starts `true` and
no sequence of `update()` calls (before any `reset()` or
`enter_maintenance()`) ever clears it; in every reachable state where
neither the limit-switch fault nor any loadcell limp-mode flag is set,
`get_error_report` returns "Power loss" with severity Error. -/
theorem C10_power_loss_invariant (tr : List Input) (s' : Fsm)
    (h : runUpdates initState tr = some s') :
    initState.error_power_loss = true ∧
    s'.error_power_loss = true ∧
    (s'.error_limit_switch = false → loadcell_limp_mode s' = none →
      get_error_report s' = ⟨some "Power loss", ErrorSeverity.ERROR⟩) := by
  have hp : s'.error_power_loss = true := by
    rw [runUpdates_pow tr initState s' h]
    decide
  refine ⟨by decide, hp, fun hl hm => ?_⟩
  unfold get_error_report
  simp [hl, hm, hp]

/-- C10 witness: the invariant applied to the empty update sequence,
i.e. the freshly booted machine reports the power loss. -/
theorem C10_power_loss_invariant_witness :
    get_error_report initState = ⟨some "Power loss", ErrorSeverity.ERROR⟩ :=
  (C10_power_loss_invariant [] initState rfl).2.2 rfl rfl

end StateMachine
